import Mathlib

/-!
Shallow embedding of the qkart-backend service layer
(src/services/user.service.js: user operations and cart operations),
with theorems checking the specification's claims about it.

JavaScript numbers are modelled as `Int` (all quantities in play are
integral), Mongo documents as Lean structures, the relevant collections
as lists, and each `async` service function as a pure function that
takes the collections it reads and returns its outcome together with
the post-call state of everything it may have persisted.  A thrown
`ApiError` becomes an `Except.error`; since JS throws abort the rest of
the function, each error branch returns the state exactly as it stood
at the throw point.
-/

/-- An `ApiError` as constructed in the source: an HTTP status code plus
a message string. -/
structure ApiError where
  statusCode : Nat
  message : String
deriving Repr, DecidableEq

/-- Status codes from the `http-status` library, as used in the source. -/
def httpStatus.OK : Nat := 200
def httpStatus.BAD_REQUEST : Nat := 400
def httpStatus.NOT_FOUND : Nat := 404
def httpStatus.INTERNAL_SERVER_ERROR : Nat := 500

/-- A product document: identity and unit cost (descriptive fields are
irrelevant to every claim and omitted). -/
structure Product where
  pid : Nat
  cost : Int
deriving Repr, DecidableEq

/-- A cart line item: an embedded product document plus a quantity,
as pushed by `addProductToCart` (`{ product: product, quantity: quantity }`). -/
structure CartItem where
  product : Product
  quantity : Int
deriving Repr, DecidableEq

/-- A cart document: keyed by the owning user's email, holding an ordered
list of line items and a payment option. -/
structure Cart where
  email : String
  cartItems : List CartItem
  paymentOption : String
deriving Repr, DecidableEq

/-- A user document: id, identity fields, shipping address and wallet balance. -/
structure User where
  uid : Nat
  name : String
  email : String
  password : String
  address : String
  walletMoney : Int
deriving Repr, DecidableEq

/-- `Cart.findOne({email})`: first cart in the collection with the given email. -/
def Cart.findOne (carts : List Cart) (email : String) : Option Cart :=
  carts.find? (fun c => c.email == email)

/-- `Product.findById(productId)`: first product in the catalog with the given id. -/
def Product.findById (products : List Product) (productId : Nat) : Option Product :=
  products.find? (fun p => p.pid == productId)

/-- `User.findById(id)` / `User.findOne({_id: id})`: first user with the given id. -/
def User.findById (users : List User) (id : Nat) : Option User :=
  users.find? (fun u => u.uid == id)

/-- `cart.save()` on a cart that is already in the collection: replace the
stored document with the mutated one, keyed by email (at most one cart per
email). -/
def Cart.save (carts : List Cart) (c : Cart) : List Cart :=
  carts.map (fun x => if x.email == c.email then c else x)

/-- The line items of the user's cart as stored, `[]` when no cart exists. -/
def cartItemsOf (carts : List Cart) (email : String) : List CartItem :=
  match Cart.findOne carts email with
  | none => []
  | some c => c.cartItems

/-- Modelled from the spec: `user.hasSetNonDefaultAddress()` is the User
model's capability-check helper (not under src/); per the spec the checkout
address validation requires "a shipping address distinct from the system
default sentinel", checked both via this helper and via a direct comparison
with `config.default_address`, the two being redundant.  So the helper holds
exactly when the address differs from the default sentinel. -/
def User.hasSetNonDefaultAddress (u : User) (defaultAddress : String) : Bool :=
  u.address != defaultAddress

/-- The total cost accumulation of `checkout`:
`let totalCost = 0; cartItems.forEach((item) => totalCost += item.product.cost * item.quantity)`. -/
def totalCostOf (items : List CartItem) : Int :=
  items.foldl (fun acc item => acc + item.product.cost * item.quantity) 0

/-- `checkout(user)` from the cart service.  Returns the call's outcome
together with the post-call user document and cart collection.
`defaultAddress` stands for `config.default_address`. -/
def checkout (carts : List Cart) (defaultAddress : String) (user : User) :
    Except ApiError Cart × User × List Cart :=
  match Cart.findOne carts user.email with
  | none =>
      (Except.error ⟨httpStatus.NOT_FOUND, "User does not have a cart"⟩, user, carts)
  | some userCart =>
      if userCart.cartItems.length = 0 then
        (Except.error ⟨httpStatus.BAD_REQUEST, "User cart is empty"⟩, user, carts)
      else if ¬ user.hasSetNonDefaultAddress defaultAddress then
        (Except.error ⟨httpStatus.BAD_REQUEST, "Address is not set"⟩, user, carts)
      else if user.address = defaultAddress then
        (Except.error ⟨httpStatus.BAD_REQUEST, "Address is not set"⟩, user, carts)
      else
        let totalCost := totalCostOf userCart.cartItems
        if user.walletMoney < totalCost then
          (Except.error ⟨httpStatus.BAD_REQUEST, "Wallet Balance is Insufficient"⟩,
            user, carts)
        else
          let user' := { user with walletMoney := user.walletMoney - totalCost }
          let cart' := { userCart with cartItems := [] }
          (Except.ok cart', user', Cart.save carts cart')

/-- Helper: full description of the success path of `checkout`. -/
lemma checkout_ok_eq (carts : List Cart) (defaultAddress : String) (user : User)
    (userCart : Cart)
    (hfind : Cart.findOne carts user.email = some userCart)
    (hne : userCart.cartItems ≠ [])
    (haddr : user.address ≠ defaultAddress)
    (hbal : totalCostOf userCart.cartItems ≤ user.walletMoney) :
    checkout carts defaultAddress user =
      (Except.ok { userCart with cartItems := [] },
       { user with walletMoney := user.walletMoney - totalCostOf userCart.cartItems },
       Cart.save carts { userCart with cartItems := [] }) := by
  have h0 : ¬ userCart.cartItems.length = 0 := by simpa using hne
  have h3 : ¬ user.walletMoney < totalCostOf userCart.cartItems := not_lt.mpr hbal
  simp [checkout, hfind, h0, haddr, h3, User.hasSetNonDefaultAddress]

/-- C1: for every user with a non-empty cart, an address differing from the
default sentinel, and wallet balance at least the cart's total cost, checkout
succeeds, empties the cart's line items, debits the wallet by exactly the
total cost, and returns the now-empty cart. -/
theorem checkout_success (carts : List Cart) (defaultAddress : String) (user : User)
    (userCart : Cart)
    (hfind : Cart.findOne carts user.email = some userCart)
    (hne : userCart.cartItems ≠ [])
    (haddr : user.address ≠ defaultAddress)
    (hbal : totalCostOf userCart.cartItems ≤ user.walletMoney) :
    checkout carts defaultAddress user =
      (Except.ok { userCart with cartItems := [] },
       { user with walletMoney := user.walletMoney - totalCostOf userCart.cartItems },
       Cart.save carts { userCart with cartItems := [] }) :=
  checkout_ok_eq carts defaultAddress user userCart hfind hne haddr hbal

/-- Witness for C1 at a concrete state: one cart with one line item of cost 100,
quantity 2; wallet 300; address "home" with sentinel "". -/
theorem checkout_success_witness :
    checkout [⟨"a@b.c", [⟨⟨1, 100⟩, 2⟩], "CASH"⟩] "" ⟨0, "n", "a@b.c", "p", "home", 300⟩ =
      (Except.ok ⟨"a@b.c", [], "CASH"⟩,
       ⟨0, "n", "a@b.c", "p", "home", 100⟩,
       [⟨"a@b.c", [], "CASH"⟩]) := by
  have h := checkout_success [⟨"a@b.c", [⟨⟨1, 100⟩, 2⟩], "CASH"⟩] ""
    ⟨0, "n", "a@b.c", "p", "home", 300⟩ ⟨"a@b.c", [⟨⟨1, 100⟩, 2⟩], "CASH"⟩
    (by decide) (by decide) (by decide) (by decide)
  rw [h]; rfl

/-- C2: checkout is all-or-nothing: every failing call leaves the user's
wallet (indeed the whole user document) and the stored carts unchanged. -/
theorem checkout_atomic (carts : List Cart) (defaultAddress : String) (user : User)
    (e : ApiError)
    (herr : (checkout carts defaultAddress user).1 = Except.error e) :
    (checkout carts defaultAddress user).2.1 = user ∧
      (checkout carts defaultAddress user).2.2 = carts := by
  cases hfind : Cart.findOne carts user.email with
  | none => simp [checkout, hfind]
  | some userCart =>
      by_cases h0 : userCart.cartItems.length = 0
      · simp [checkout, hfind, h0]
      · by_cases h1 : user.address = defaultAddress
        · simp [checkout, hfind, h0, h1, User.hasSetNonDefaultAddress]
        · by_cases h3 : user.walletMoney < totalCostOf userCart.cartItems
          · simp [checkout, hfind, h0, h1, h3, User.hasSetNonDefaultAddress]
          · rw [checkout_ok_eq carts defaultAddress user userCart hfind
              (by simpa using h0) h1 (not_lt.mp h3)] at herr
            exact absurd herr (by simp)

/-- Witness for C2 at a concrete state: wallet 200 is below the total 250,
so checkout fails and both the user and the cart store are unchanged. -/
theorem checkout_atomic_witness :
    (checkout [⟨"a@b.c", [⟨⟨1, 100⟩, 2⟩, ⟨⟨2, 50⟩, 1⟩], "CASH"⟩] ""
        ⟨0, "n", "a@b.c", "p", "home", 200⟩).1 =
      Except.error ⟨400, "Wallet Balance is Insufficient"⟩ ∧
    (checkout [⟨"a@b.c", [⟨⟨1, 100⟩, 2⟩, ⟨⟨2, 50⟩, 1⟩], "CASH"⟩] ""
        ⟨0, "n", "a@b.c", "p", "home", 200⟩).2.1 =
      ⟨0, "n", "a@b.c", "p", "home", 200⟩ ∧
    (checkout [⟨"a@b.c", [⟨⟨1, 100⟩, 2⟩, ⟨⟨2, 50⟩, 1⟩], "CASH"⟩] ""
        ⟨0, "n", "a@b.c", "p", "home", 200⟩).2.2 =
      [⟨"a@b.c", [⟨⟨1, 100⟩, 2⟩, ⟨⟨2, 50⟩, 1⟩], "CASH"⟩] := by
  refine ⟨rfl, ?_⟩
  have h := checkout_atomic [⟨"a@b.c", [⟨⟨1, 100⟩, 2⟩, ⟨⟨2, 50⟩, 1⟩], "CASH"⟩] ""
    ⟨0, "n", "a@b.c", "p", "home", 200⟩ ⟨400, "Wallet Balance is Insufficient"⟩ rfl
  exact h

/-- C3: a wallet balance exactly equal to the cart's total cost is enough:
the insufficiency check is `balance < total`, so the boundary case succeeds
(and leaves the wallet at zero debt, balance minus total). -/
theorem checkout_boundary_exact (carts : List Cart) (defaultAddress : String)
    (user : User) (userCart : Cart)
    (hfind : Cart.findOne carts user.email = some userCart)
    (hne : userCart.cartItems ≠ [])
    (haddr : user.address ≠ defaultAddress)
    (hbal : user.walletMoney = totalCostOf userCart.cartItems) :
    (checkout carts defaultAddress user).1 =
      Except.ok { userCart with cartItems := [] } := by
  rw [checkout_ok_eq carts defaultAddress user userCart hfind hne haddr (le_of_eq hbal.symm)]

/-- Witness for C3 at a concrete state: wallet 250 equals the total
100 * 2 + 50 * 1, and checkout succeeds. -/
theorem checkout_boundary_exact_witness :
    (checkout [⟨"a@b.c", [⟨⟨1, 100⟩, 2⟩, ⟨⟨2, 50⟩, 1⟩], "CASH"⟩] ""
        ⟨0, "n", "a@b.c", "p", "home", 250⟩).1 =
      Except.ok ⟨"a@b.c", [], "CASH"⟩ := by
  have h := checkout_boundary_exact [⟨"a@b.c", [⟨⟨1, 100⟩, 2⟩, ⟨⟨2, 50⟩, 1⟩], "CASH"⟩] ""
    ⟨0, "n", "a@b.c", "p", "home", 250⟩ ⟨"a@b.c", [⟨⟨1, 100⟩, 2⟩, ⟨⟨2, 50⟩, 1⟩], "CASH"⟩
    (by decide) (by decide) (by decide) (by decide)
  rw [h]

/-- A fragment of JavaScript runtime values, enough to evaluate the guard
`!userCart.cartItems.length === 0` of `addProductToCart` with JS semantics. -/
inductive JSValue where
  | num (n : Int)
  | bool (b : Bool)
deriving Repr, DecidableEq

/-- JS logical negation `!v`: true exactly when `v` is falsy
(a number is falsy exactly when it is zero; a boolean when it is false). -/
def jsNot : JSValue → JSValue
  | JSValue.num n => JSValue.bool (n == 0)
  | JSValue.bool b => JSValue.bool (!b)

/-- JS strict equality `===`: operands of different runtime types are never
strictly equal; same-typed operands compare by value. -/
def jsStrictEq : JSValue → JSValue → Bool
  | JSValue.num a, JSValue.num b => a == b
  | JSValue.bool a, JSValue.bool b => a == b
  | _, _ => false

/-- The condition of the generic Bad Request branch of `addProductToCart`,
exactly as written in the source: `!userCart.cartItems.length === 0`,
which JS parses as `(!userCart.cartItems.length) === 0`: a boolean compared
strictly against the number 0. -/
def badRequestGuard (userCart : Cart) : Bool :=
  jsStrictEq (jsNot (JSValue.num userCart.cartItems.length)) (JSValue.num 0)

/-- `addProductToCart(user, productId, quantity)` from the cart service.
When no cart exists one is created (empty item list, default payment option)
and persisted; the data-store itself is modelled as always accepting the
creation, so the 500-class creation-failure branch does not arise.  Returns
the outcome together with the post-call cart collection. -/
def addProductToCart (products : List Product) (carts : List Cart)
    (defaultPaymentOption : String) (user : User) (productId : Nat) (quantity : Int) :
    Except ApiError Cart × List Cart :=
  let found := Cart.findOne carts user.email
  let userCart :=
    match found with
    | some c => c
    | none => { email := user.email, cartItems := [], paymentOption := defaultPaymentOption }
  let carts1 :=
    match found with
    | some _ => carts
    | none => carts ++ [userCart]
  if badRequestGuard userCart then
    (Except.error ⟨httpStatus.BAD_REQUEST, "Bad Request"⟩, carts1)
  else if userCart.cartItems.any (fun item => item.product.pid == productId) then
    (Except.error ⟨httpStatus.BAD_REQUEST,
      "Product already in cart. Use the cart sidebar to update or remove product from cart"⟩,
     carts1)
  else
    match Product.findById products productId with
    | none =>
        (Except.error ⟨httpStatus.BAD_REQUEST, "Product doesn\x27t exist in database"⟩, carts1)
    | some product =>
        let cart' := { userCart with cartItems := userCart.cartItems ++ [⟨product, quantity⟩] }
        (Except.ok cart', Cart.save carts1 cart')

/-- `productExist.quantity = quantity` after `cartItems.find(...)`: mutate the
quantity of the first line item whose embedded product has the given id. -/
def updateFirstQuantity (items : List CartItem) (productId : Nat) (q : Int) : List CartItem :=
  match items with
  | [] => []
  | i :: rest =>
      if i.product.pid == productId then { i with quantity := q } :: rest
      else i :: updateFirstQuantity rest productId q

/-- `updateProductInCart(user, productId, quantity)` from the cart service. -/
def updateProductInCart (products : List Product) (carts : List Cart)
    (user : User) (productId : Nat) (quantity : Int) :
    Except ApiError Cart × List Cart :=
  match Cart.findOne carts user.email with
  | none =>
      (Except.error ⟨httpStatus.BAD_REQUEST,
        "User does not have a cart. Use POST to create cart and add a product"⟩, carts)
  | some userCart =>
      match Product.findById products productId with
      | none =>
          (Except.error ⟨httpStatus.BAD_REQUEST, "Product doesn\x27t exist in database"⟩, carts)
      | some _ =>
          if userCart.cartItems.any (fun item => item.product.pid == productId) then
            let cart' := { userCart with
              cartItems := updateFirstQuantity userCart.cartItems productId quantity }
            (Except.ok cart', Cart.save carts cart')
          else
            (Except.error ⟨httpStatus.BAD_REQUEST, "Product not in cart"⟩, carts)

/-- `cartItems.splice(index, 1)` after `cartItems.findIndex(...)`: remove the
first line item whose embedded product has the given id. -/
def removeFirstItem (items : List CartItem) (productId : Nat) : List CartItem :=
  match items with
  | [] => []
  | i :: rest =>
      if i.product.pid == productId then rest else i :: removeFirstItem rest productId

/-- `deleteProductFromCart(user, productId)` from the cart service. -/
def deleteProductFromCart (carts : List Cart) (user : User) (productId : Nat) :
    Except ApiError Cart × List Cart :=
  match Cart.findOne carts user.email with
  | none =>
      (Except.error ⟨httpStatus.BAD_REQUEST, "User does not have a cart"⟩, carts)
  | some userCart =>
      if userCart.cartItems.any (fun item => item.product.pid == productId) then
        let cart' := { userCart with
          cartItems := removeFirstItem userCart.cartItems productId }
        (Except.ok cart', Cart.save carts cart')
      else
        (Except.error ⟨httpStatus.BAD_REQUEST, "Product not in cart"⟩, carts)

/-- `getCartByUser(user)` from the cart service. -/
def getCartByUser (carts : List Cart) (user : User) : Except ApiError Cart :=
  match Cart.findOne carts user.email with
  | none => Except.error ⟨httpStatus.NOT_FOUND, "User does not have a cart"⟩
  | some cart => Except.ok cart

/-- The per-cart invariant: a given product appears at most once per cart. -/
def CartNoDup (c : Cart) : Prop :=
  (c.cartItems.map (fun i => i.product.pid)).Nodup

instance (c : Cart) : Decidable (CartNoDup c) := by
  unfold CartNoDup; infer_instance

/-- The request body consumed by `createUser`. -/
structure UserBody where
  name : String
  email : String
  password : String
deriving Repr, DecidableEq

/-- Modelled from the spec: `User.isEmailTaken(email)` is the User model's
static helper (declared outside src/); per the spec it reports whether
"the email is already registered". -/
def User.isEmailTaken (users : List User) (email : String) : Bool :=
  users.any (fun u => u.email == email)

/-- Modelled from the spec: `User.create(user)` persists "a new user record"
built from the request body; the freshly generated id and the model-level
defaults for address and wallet balance live outside src/ and are abstracted
as parameters. -/
def User.createDoc (body : UserBody) (newId : Nat) (defaultAddress : String)
    (defaultWallet : Int) : User :=
  { uid := newId, name := body.name, email := body.email, password := body.password,
    address := defaultAddress, walletMoney := defaultWallet }

/-- `createUser(user)` from the user service: throws an ApiError carrying
`httpStatus.OK` and "Email already taken" when the email is taken, otherwise
persists and returns the new user.  Returns the outcome together with the
post-call user collection. -/
def createUser (users : List User) (body : UserBody) (newId : Nat)
    (defaultAddress : String) (defaultWallet : Int) : Except ApiError User × List User :=
  if User.isEmailTaken users body.email then
    (Except.error ⟨httpStatus.OK, "Email already taken"⟩, users)
  else
    let newUser := User.createDoc body newId defaultAddress defaultWallet
    (Except.ok newUser, users ++ [newUser])

/-- `getUserById(id)` from the user service. -/
def getUserById (users : List User) (id : Nat) : Except ApiError User :=
  match User.findById users id with
  | none => Except.error ⟨httpStatus.BAD_REQUEST, "User not found"⟩
  | some user => Except.ok user

/-- `getUserByEmail(email)` from the user service: no error on absence. -/
def getUserByEmail (users : List User) (email : String) : Option User :=
  users.find? (fun u => u.email == email)

/-- Outcome of a JS service call that may also crash with an uncaught
runtime TypeError (as opposed to a deliberately thrown ApiError). -/
inductive JsOutcome (α : Type) where
  | ok (a : α)
  | apiError (e : ApiError)
  | typeErr (msg : String)
deriving Repr, DecidableEq

/-- The projection returned by `getUserAddressById`: either
`{address}` (when the query flag is set) or `{_id, address, email}`. -/
inductive AddressResult where
  | addressOnly (address : String)
  | full (id : Nat) (address : String) (email : String)
deriving Repr, DecidableEq

/-- `getUserAddressById(id, q)` from the user service: fetches the user via
`User.findOne({_id: id}, {address: 1, email: 1})` and immediately reads
`user.address` with no null check; when no user matches, `findOne` yields
null and the field read crashes with a TypeError instead of throwing an
ApiError. -/
def getUserAddressById (users : List User) (id : Nat) (q : Bool) :
    JsOutcome AddressResult :=
  match User.findById users id with
  | none => JsOutcome.typeErr "TypeError: cannot read address of null"
  | some user =>
      if q then JsOutcome.ok (AddressResult.addressOnly user.address)
      else JsOutcome.ok (AddressResult.full id user.address user.email)

/-- `setAddress(user, newAddress)` from the user service: overwrite the
address, persist, return the new address. -/
def setAddress (user : User) (newAddress : String) : User × String :=
  ({ user with address := newAddress }, newAddress)

/-- Helper: the Bad Request condition of `addProductToCart` is false for every
cart: a boolean is never strictly equal (===) to the number 0. -/
lemma badRequestGuard_false (c : Cart) : badRequestGuard c = false := rfl

/-- Helper: membership in a saved collection comes from the saved document or
from the original collection. -/
lemma mem_save {carts : List Cart} {c c' : Cart} (h : c' ∈ Cart.save carts c) :
    c' = c ∨ c' ∈ carts := by
  unfold Cart.save at h
  rcases List.mem_map.mp h with ⟨x, hx, hxc⟩
  by_cases he : x.email == c.email
  · rw [if_pos he] at hxc
    exact Or.inl hxc.symm
  · rw [if_neg he] at hxc
    exact Or.inr (hxc ▸ hx)

/-- Helper: a found product carries the id it was looked up by. -/
lemma findById_pid {products : List Product} {productId : Nat} {p : Product}
    (h : Product.findById products productId = some p) : p.pid = productId := by
  unfold Product.findById at h
  have hp := List.find?_some h
  simpa using hp

/-- Helper: mutating the first matching line item's quantity never changes
which product ids the items carry. -/
lemma map_pid_updateFirstQuantity (items : List CartItem) (productId : Nat) (q : Int) :
    (updateFirstQuantity items productId q).map (fun i => i.product.pid) =
      items.map (fun i => i.product.pid) := by
  induction items with
  | nil => rfl
  | cons i rest ih =>
      cases h : i.product.pid == productId with
      | true => simp [updateFirstQuantity, h]
      | false => simp [updateFirstQuantity, h, ih]

/-- Helper: a found cart is a member of the collection. -/
lemma findOne_mem {carts : List Cart} {e : String} {c : Cart}
    (h : Cart.findOne carts e = some c) : c ∈ carts := by
  unfold Cart.findOne at h
  exact List.mem_of_find?_eq_some h

/-- Helper: removing the first matching line item yields a sublist. -/
lemma removeFirstItem_sublist (items : List CartItem) (productId : Nat) :
    List.Sublist (removeFirstItem items productId) items := by
  induction items with
  | nil => exact List.Sublist.refl _
  | cons i rest ih =>
      cases h : i.product.pid == productId with
      | true =>
          simp only [removeFirstItem, h]
          exact List.sublist_cons_self i rest
      | false =>
          simpa [removeFirstItem, h] using List.Sublist.cons₂ i ih

/-- Helper: mutating the quantity of the first line item matching the id,
spelled out on a decomposition of the item list around the first match. -/
lemma updateFirstQuantity_eq (l1 : List CartItem) (i : CartItem) (l2 : List CartItem)
    (productId : Nat) (q : Int)
    (h1 : ∀ j ∈ l1, j.product.pid ≠ productId) (hi : i.product.pid = productId) :
    updateFirstQuantity (l1 ++ i :: l2) productId q =
      l1 ++ { i with quantity := q } :: l2 := by
  induction l1 with
  | nil => simp [updateFirstQuantity, hi]
  | cons a l ih =>
      have ha : a.product.pid ≠ productId := h1 a (by simp)
      have ih' := ih (fun j hj => h1 j (by simp [hj]))
      simp [updateFirstQuantity, ha, ih']

/-- Helper: enumeration of the side-effect state of `checkout`: either the
cart collection is untouched, or it is the original collection with the
found cart emptied. -/
lemma checkout_carts_cases (carts : List Cart) (defaultAddress : String) (user : User) :
    (checkout carts defaultAddress user).2.2 = carts ∨
    ∃ userCart : Cart, (checkout carts defaultAddress user).2.2 =
      Cart.save carts { userCart with cartItems := [] } := by
  cases hfind : Cart.findOne carts user.email with
  | none => exact Or.inl (by simp [checkout, hfind])
  | some userCart =>
      by_cases h0 : userCart.cartItems.length = 0
      · exact Or.inl (by simp [checkout, hfind, h0])
      · by_cases h1 : user.address = defaultAddress
        · exact Or.inl (by simp [checkout, hfind, h0, h1, User.hasSetNonDefaultAddress])
        · by_cases h3 : user.walletMoney < totalCostOf userCart.cartItems
          · exact Or.inl (by simp [checkout, hfind, h0, h1, h3, User.hasSetNonDefaultAddress])
          · refine Or.inr ⟨userCart, ?_⟩
            rw [checkout_ok_eq carts defaultAddress user userCart hfind
              (by simpa using h0) h1 (not_lt.mp h3)]

/-- Helper: the duplicate-product branch of `addProductToCart`, spelled out:
a product already present makes the call fail with the already-in-cart error
and leaves the stored carts untouched. -/
lemma addProductToCart_dup_eq (products : List Product) (carts : List Cart)
    (dpo : String) (user : User) (productId : Nat) (quantity : Int) (userCart : Cart)
    (hfind : Cart.findOne carts user.email = some userCart)
    (hdup : ∃ i ∈ userCart.cartItems, i.product.pid = productId) :
    addProductToCart products carts dpo user productId quantity =
      (Except.error ⟨httpStatus.BAD_REQUEST,
        "Product already in cart. Use the cart sidebar to update or remove product from cart"⟩,
       carts) := by
  have hany : userCart.cartItems.any (fun i => i.product.pid == productId) = true := by
    rcases hdup with ⟨i, hi, hpid⟩
    exact List.any_eq_true.mpr ⟨i, hi, by simp [hpid]⟩
  simp [addProductToCart, hfind, badRequestGuard_false, hany]

/-- Helper: `addProductToCart` keeps the no-duplicate-product invariant on
every stored cart. -/
lemma addProductToCart_preserves_nodup (products : List Product) (carts : List Cart)
    (dpo : String) (user : User) (productId : Nat) (quantity : Int)
    (hinv : ∀ c ∈ carts, CartNoDup c) :
    ∀ c' ∈ (addProductToCart products carts dpo user productId quantity).2, CartNoDup c' := by
  intro c' hc'
  cases hfind : Cart.findOne carts user.email with
  | some userCart =>
      cases hany : userCart.cartItems.any (fun i => i.product.pid == productId) with
      | true =>
          simp [addProductToCart, hfind, badRequestGuard_false, hany] at hc'
          exact hinv c' hc'
      | false =>
          cases hp : Product.findById products productId with
          | none =>
              simp [addProductToCart, hfind, badRequestGuard_false, hany, hp] at hc'
              exact hinv c' hc'
          | some p =>
              simp only [addProductToCart, hfind, badRequestGuard_false, hany, hp,
                Bool.false_eq_true, if_false] at hc'
              rcases mem_save hc' with hceq | hmem
              · subst hceq
                have hpid := findById_pid hp
                have hold := hinv userCart (findOne_mem hfind)
                have hnotin : ∀ i ∈ userCart.cartItems, i.product.pid ≠ productId := by
                  intro i hi heq
                  have hx : userCart.cartItems.any (fun i => i.product.pid == productId)
                      = true := List.any_eq_true.mpr ⟨i, hi, by simp [heq]⟩
                  simp [hany] at hx
                unfold CartNoDup at hold ⊢
                simp only [List.map_append, List.map_cons, List.map_nil]
                rw [List.nodup_append]
                refine ⟨hold, List.nodup_singleton _, ?_⟩
                intro x hx hx1
                simp only [List.mem_singleton] at hx1
                rcases List.mem_map.mp hx with ⟨i, hi, rfl⟩
                exact hnotin i hi (by rw [hx1, hpid])
              · exact hinv c' hmem
  | none =>
      cases hp : Product.findById products productId with
      | none =>
          simp [addProductToCart, hfind, badRequestGuard_false, hp] at hc'
          rcases hc' with hc' | hc'
          · exact hinv c' hc'
          · subst hc'
            simp [CartNoDup]
      | some p =>
          simp only [addProductToCart, hfind, badRequestGuard_false, hp, List.any_nil,
            Bool.false_eq_true, if_false] at hc'
          rcases mem_save hc' with hceq | hmem
          · subst hceq
            simp [CartNoDup]
          · rcases List.mem_append.mp hmem with hc'' | hc''
            · exact hinv c' hc''
            · rw [List.mem_singleton.mp hc'']
              simp [CartNoDup]

/-- Helper: `updateProductInCart` keeps the no-duplicate-product invariant on
every stored cart. -/
lemma updateProductInCart_preserves_nodup (products : List Product) (carts : List Cart)
    (user : User) (productId : Nat) (quantity : Int)
    (hinv : ∀ c ∈ carts, CartNoDup c) :
    ∀ c' ∈ (updateProductInCart products carts user productId quantity).2, CartNoDup c' := by
  intro c' hc'
  cases hfind : Cart.findOne carts user.email with
  | none =>
      simp [updateProductInCart, hfind] at hc'
      exact hinv c' hc'
  | some userCart =>
      cases hp : Product.findById products productId with
      | none =>
          simp [updateProductInCart, hfind, hp] at hc'
          exact hinv c' hc'
      | some p =>
          cases hany : userCart.cartItems.any (fun i => i.product.pid == productId) with
          | false =>
              simp [updateProductInCart, hfind, hp, hany] at hc'
              exact hinv c' hc'
          | true =>
              simp only [updateProductInCart, hfind, hp, hany, if_true] at hc'
              rcases mem_save hc' with hceq | hmem
              · subst hceq
                have hold := hinv userCart (findOne_mem hfind)
                unfold CartNoDup at hold ⊢
                rw [map_pid_updateFirstQuantity]
                exact hold
              · exact hinv c' hmem

/-- Helper: `deleteProductFromCart` keeps the no-duplicate-product invariant
on every stored cart. -/
lemma deleteProductFromCart_preserves_nodup (carts : List Cart) (user : User)
    (productId : Nat) (hinv : ∀ c ∈ carts, CartNoDup c) :
    ∀ c' ∈ (deleteProductFromCart carts user productId).2, CartNoDup c' := by
  intro c' hc'
  cases hfind : Cart.findOne carts user.email with
  | none =>
      simp [deleteProductFromCart, hfind] at hc'
      exact hinv c' hc'
  | some userCart =>
      cases hany : userCart.cartItems.any (fun i => i.product.pid == productId) with
      | false =>
          simp [deleteProductFromCart, hfind, hany] at hc'
          exact hinv c' hc'
      | true =>
          simp only [deleteProductFromCart, hfind, hany, if_true] at hc'
          rcases mem_save hc' with hceq | hmem
          · subst hceq
            have hold := hinv userCart (findOne_mem hfind)
            unfold CartNoDup at hold ⊢
            exact hold.sublist ((removeFirstItem_sublist _ _).map _)
          · exact hinv c' hmem

/-- Helper: `checkout` keeps the no-duplicate-product invariant on every
stored cart. -/
lemma checkout_preserves_nodup (carts : List Cart) (defaultAddress : String)
    (user : User) (hinv : ∀ c ∈ carts, CartNoDup c) :
    ∀ c' ∈ (checkout carts defaultAddress user).2.2, CartNoDup c' := by
  intro c' hc'
  rcases checkout_carts_cases carts defaultAddress user with h | ⟨userCart, h⟩
  · rw [h] at hc'
    exact hinv c' hc'
  · rw [h] at hc'
    rcases mem_save hc' with hceq | hmem
    · subst hceq
      simp [CartNoDup]
    · exact hinv c' hmem

/-- Helper: every error thrown by `addProductToCart` is one of the two
business-rule errors (duplicate product, or product missing from catalog). -/
lemma addProductToCart_error_cases (products : List Product) (carts : List Cart)
    (dpo : String) (user : User) (productId : Nat) (quantity : Int) (e : ApiError)
    (herr : (addProductToCart products carts dpo user productId quantity).1 =
      Except.error e) :
    e = ⟨httpStatus.BAD_REQUEST,
          "Product already in cart. Use the cart sidebar to update or remove product from cart"⟩ ∨
    e = ⟨httpStatus.BAD_REQUEST, "Product doesn\x27t exist in database"⟩ := by
  cases hfind : Cart.findOne carts user.email with
  | some userCart =>
      cases hany : userCart.cartItems.any (fun i => i.product.pid == productId) with
      | true =>
          simp [addProductToCart, hfind, badRequestGuard_false, hany] at herr
          exact Or.inl herr.symm
      | false =>
          cases hp : Product.findById products productId with
          | none =>
              simp [addProductToCart, hfind, badRequestGuard_false, hany, hp] at herr
              exact Or.inr herr.symm
          | some p =>
              simp [addProductToCart, hfind, badRequestGuard_false, hany, hp] at herr
  | none =>
      cases hp : Product.findById products productId with
      | none =>
          simp [addProductToCart, hfind, badRequestGuard_false, hp] at herr
          exact Or.inr herr.symm
      | some p =>
          simp [addProductToCart, hfind, badRequestGuard_false, hp] at herr

/-- C4: every cart operation preserves the invariant that a given product
appears at most once per cart, and in particular `addProductToCart` called
for a product already present in the cart always fails with the
already-in-cart error, leaving the stored carts (hence every quantity)
unchanged. -/
theorem cart_product_unique :
    (∀ products carts dpo user productId quantity userCart,
        Cart.findOne carts user.email = some userCart →
        (∃ i ∈ userCart.cartItems, i.product.pid = productId) →
        addProductToCart products carts dpo user productId quantity =
          (Except.error ⟨httpStatus.BAD_REQUEST,
            "Product already in cart. Use the cart sidebar to update or remove product from cart"⟩,
           carts)) ∧
    (∀ products carts dpo user productId quantity,
        (∀ c ∈ carts, CartNoDup c) →
        ∀ c' ∈ (addProductToCart products carts dpo user productId quantity).2,
          CartNoDup c') ∧
    (∀ products carts user productId quantity,
        (∀ c ∈ carts, CartNoDup c) →
        ∀ c' ∈ (updateProductInCart products carts user productId quantity).2,
          CartNoDup c') ∧
    (∀ carts user productId,
        (∀ c ∈ carts, CartNoDup c) →
        ∀ c' ∈ (deleteProductFromCart carts user productId).2, CartNoDup c') ∧
    (∀ carts defaultAddress user,
        (∀ c ∈ carts, CartNoDup c) →
        ∀ c' ∈ (checkout carts defaultAddress user).2.2, CartNoDup c') :=
  ⟨addProductToCart_dup_eq, addProductToCart_preserves_nodup,
   updateProductInCart_preserves_nodup, deleteProductFromCart_preserves_nodup,
   checkout_preserves_nodup⟩

/-- Witness for C4 at a concrete state: adding product 1 to a cart already
holding product 1 fails with the already-in-cart error and changes nothing,
and a freshly built one-item cart satisfies the invariant via the
preservation part. -/
theorem cart_product_unique_witness :
    (addProductToCart [⟨1, 100⟩] [⟨"a@b.c", [⟨⟨1, 100⟩, 2⟩], "CASH"⟩] "CASH"
        ⟨0, "n", "a@b.c", "p", "home", 0⟩ 1 5 =
      (Except.error ⟨400,
        "Product already in cart. Use the cart sidebar to update or remove product from cart"⟩,
       [⟨"a@b.c", [⟨⟨1, 100⟩, 2⟩], "CASH"⟩])) ∧
    CartNoDup ⟨"a@b.c", [⟨⟨1, 100⟩, 1⟩], "CASH"⟩ := by
  constructor
  · exact cart_product_unique.1 [⟨1, 100⟩] _ "CASH" ⟨0, "n", "a@b.c", "p", "home", 0⟩ 1 5
      ⟨"a@b.c", [⟨⟨1, 100⟩, 2⟩], "CASH"⟩ rfl ⟨⟨⟨1, 100⟩, 2⟩, by simp, rfl⟩
  · exact cart_product_unique.2.1 [⟨1, 100⟩] [] "CASH" ⟨0, "n", "a@b.c", "p", "home", 0⟩ 1 1
      (by simp) _ (by decide)

/-- C5: the generic Bad Request branch of `addProductToCart` is unreachable:
its condition `!userCart.cartItems.length === 0` is false for every cart
state (a boolean is never strictly equal to a number), so no call ever fails
with the "Bad Request" error; rejections come only from the business rules. -/
theorem addProductToCart_badRequest_unreachable :
    (∀ c : Cart, badRequestGuard c = false) ∧
    (∀ products carts dpo user productId quantity e,
        (addProductToCart products carts dpo user productId quantity).1 =
          Except.error e →
        e.message ≠ "Bad Request") := by
  refine ⟨badRequestGuard_false, ?_⟩
  intro products carts dpo user productId quantity e herr
  rcases addProductToCart_error_cases products carts dpo user productId quantity e herr with
    h | h <;> subst h <;> decide

/-- Witness for C5 at a concrete state: a call failing on a missing product
carries a message that is not "Bad Request". -/
theorem addProductToCart_badRequest_unreachable_witness :
    badRequestGuard ⟨"a@b.c", [], "CASH"⟩ = false ∧
    (addProductToCart [] [] "CASH" ⟨0, "n", "a@b.c", "p", "home", 0⟩ 7 1).1 =
      Except.error ⟨400, "Product doesn\x27t exist in database"⟩ ∧
    (⟨400, "Product doesn\x27t exist in database"⟩ : ApiError).message ≠ "Bad Request" := by
  refine ⟨addProductToCart_badRequest_unreachable.1 _, rfl, ?_⟩
  exact addProductToCart_badRequest_unreachable.2 [] [] "CASH"
    ⟨0, "n", "a@b.c", "p", "home", 0⟩ 7 1 ⟨400, "Product doesn\x27t exist in database"⟩ rfl

/-- C6: adding a product id that does not resolve in the catalog always
fails with a 400-class error, for every cart state, and leaves the user's
stored line items as they were (an absent cart counts as no line items). -/
theorem addProductToCart_missing_product (products : List Product) (carts : List Cart)
    (dpo : String) (user : User) (productId : Nat) (quantity : Int)
    (hmiss : Product.findById products productId = none) :
    ∃ e, (addProductToCart products carts dpo user productId quantity).1 =
        Except.error e ∧
      e.statusCode = httpStatus.BAD_REQUEST ∧
      cartItemsOf (addProductToCart products carts dpo user productId quantity).2
          user.email =
        cartItemsOf carts user.email := by
  cases hfind : Cart.findOne carts user.email with
  | none =>
      have hfind' : carts.find? (fun c => c.email == user.email) = none := hfind
      refine ⟨⟨httpStatus.BAD_REQUEST, "Product doesn\x27t exist in database"⟩, ?_, rfl, ?_⟩
      · simp [addProductToCart, hfind, badRequestGuard_false, hmiss]
      · simp [addProductToCart, hfind, badRequestGuard_false, hmiss, cartItemsOf,
          Cart.findOne, hfind']
  | some userCart =>
      cases hany : userCart.cartItems.any (fun i => i.product.pid == productId) with
      | true =>
          refine ⟨⟨httpStatus.BAD_REQUEST,
            "Product already in cart. Use the cart sidebar to update or remove product from cart"⟩,
            ?_, rfl, ?_⟩
          · simp [addProductToCart, hfind, badRequestGuard_false, hany]
          · simp [addProductToCart, hfind, badRequestGuard_false, hany]
      | false =>
          refine ⟨⟨httpStatus.BAD_REQUEST, "Product doesn\x27t exist in database"⟩,
            ?_, rfl, ?_⟩
          · simp [addProductToCart, hfind, badRequestGuard_false, hany, hmiss]
          · simp [addProductToCart, hfind, badRequestGuard_false, hany, hmiss]

/-- Witness for C6 at a concrete state: an empty catalog, an existing
one-item cart; the add fails with status 400 and the stored items persist. -/
theorem addProductToCart_missing_product_witness :
    Product.findById [] 7 = none ∧
    ∃ e, (addProductToCart [] [⟨"a@b.c", [⟨⟨1, 100⟩, 2⟩], "CASH"⟩] "CASH"
        ⟨0, "n", "a@b.c", "p", "home", 0⟩ 7 3).1 = Except.error e ∧
      e.statusCode = httpStatus.BAD_REQUEST ∧
      cartItemsOf (addProductToCart [] [⟨"a@b.c", [⟨⟨1, 100⟩, 2⟩], "CASH"⟩] "CASH"
          ⟨0, "n", "a@b.c", "p", "home", 0⟩ 7 3).2 "a@b.c" =
        cartItemsOf [⟨"a@b.c", [⟨⟨1, 100⟩, 2⟩], "CASH"⟩] "a@b.c" :=
  ⟨rfl, addProductToCart_missing_product [] _ "CASH"
    ⟨0, "n", "a@b.c", "p", "home", 0⟩ 7 3 rfl⟩

/-- C7: `updateProductInCart` for a catalog product that is not a line item
of the user's existing cart always fails with the not-in-cart error and
leaves the stored carts unchanged; when the product is a line item, it
overwrites exactly the first matching item's quantity in place (all other
items and all products untouched) and persists the cart. -/
theorem updateProductInCart_spec :
    (∀ products carts user productId quantity userCart p,
        Cart.findOne carts user.email = some userCart →
        Product.findById products productId = some p →
        (∀ i ∈ userCart.cartItems, i.product.pid ≠ productId) →
        updateProductInCart products carts user productId quantity =
          (Except.error ⟨httpStatus.BAD_REQUEST, "Product not in cart"⟩, carts)) ∧
    (∀ products carts user productId quantity userCart p l1 i l2,
        Cart.findOne carts user.email = some userCart →
        Product.findById products productId = some p →
        userCart.cartItems = l1 ++ i :: l2 →
        (∀ j ∈ l1, j.product.pid ≠ productId) →
        i.product.pid = productId →
        updateProductInCart products carts user productId quantity =
          (Except.ok
            { userCart with cartItems := l1 ++ { i with quantity := quantity } :: l2 },
           Cart.save carts
            { userCart with cartItems := l1 ++ { i with quantity := quantity } :: l2 })) := by
  constructor
  · intro products carts user productId quantity userCart p hfind hp hno
    have hany : userCart.cartItems.any (fun i => i.product.pid == productId) = false := by
      rw [List.any_eq_false]
      intro i hi
      simpa using hno i hi
    simp [updateProductInCart, hfind, hp, hany]
  · intro products carts user productId quantity userCart p l1 i l2 hfind hp hitems h1 hi
    have hany : userCart.cartItems.any (fun j => j.product.pid == productId) = true := by
      rw [hitems]
      exact List.any_eq_true.mpr ⟨i, by simp, by simp [hi]⟩
    have hupd : updateFirstQuantity userCart.cartItems productId quantity =
        l1 ++ { i with quantity := quantity } :: l2 := by
      rw [hitems]
      exact updateFirstQuantity_eq l1 i l2 productId quantity h1 hi
    simp [updateProductInCart, hfind, hp, hany, hupd]

/-- Witness for C7 at concrete states: updating product 2 in a cart without
it fails and changes nothing; updating product 2 in a two-item cart rewrites
only the second item's quantity. -/
theorem updateProductInCart_spec_witness :
    (updateProductInCart [⟨2, 50⟩] [⟨"a@b.c", [⟨⟨1, 100⟩, 2⟩], "CASH"⟩]
        ⟨0, "n", "a@b.c", "p", "home", 0⟩ 2 9 =
      (Except.error ⟨400, "Product not in cart"⟩,
       [⟨"a@b.c", [⟨⟨1, 100⟩, 2⟩], "CASH"⟩])) ∧
    (updateProductInCart [⟨2, 50⟩] [⟨"a@b.c", [⟨⟨1, 100⟩, 2⟩, ⟨⟨2, 50⟩, 1⟩], "CASH"⟩]
        ⟨0, "n", "a@b.c", "p", "home", 0⟩ 2 9 =
      (Except.ok ⟨"a@b.c", [⟨⟨1, 100⟩, 2⟩, ⟨⟨2, 50⟩, 9⟩], "CASH"⟩,
       [⟨"a@b.c", [⟨⟨1, 100⟩, 2⟩, ⟨⟨2, 50⟩, 9⟩], "CASH"⟩])) := by
  constructor
  · exact updateProductInCart_spec.1 [⟨2, 50⟩] _ ⟨0, "n", "a@b.c", "p", "home", 0⟩ 2 9
      ⟨"a@b.c", [⟨⟨1, 100⟩, 2⟩], "CASH"⟩ ⟨2, 50⟩ rfl rfl (by decide)
  · have h := updateProductInCart_spec.2 [⟨2, 50⟩]
      [⟨"a@b.c", [⟨⟨1, 100⟩, 2⟩, ⟨⟨2, 50⟩, 1⟩], "CASH"⟩] ⟨0, "n", "a@b.c", "p", "home", 0⟩ 2 9
      ⟨"a@b.c", [⟨⟨1, 100⟩, 2⟩, ⟨⟨2, 50⟩, 1⟩], "CASH"⟩ ⟨2, 50⟩
      [⟨⟨1, 100⟩, 2⟩] ⟨⟨2, 50⟩, 1⟩ [] rfl rfl rfl (by decide) rfl
    rw [h]; rfl

/-- Counterexample for C8 at a concrete state: a duplicate email makes
`createUser` throw, but the thrown error carries HTTP status 200 — a
success-shaped code, not a 4xx client-error code. -/
theorem createUser_status_not_client_error :
    (createUser [⟨0, "n", "a@b.c", "p", "", 0⟩] ⟨"m", "a@b.c", "q"⟩ 1 "" 500).1 =
      Except.error ⟨200, "Email already taken"⟩ ∧
    ¬ (400 ≤ (200 : Nat) ∧ (200 : Nat) < 500) :=
  ⟨rfl, by decide⟩

/-- C8 (amended): `createUser` rejects with an "Email already taken" error —
carrying HTTP status 200 (`httpStatus.OK`), a success-shaped code, rather
than a 4xx client-error code — exactly when some stored user already has the
requested email; otherwise it appends and returns the new user record built
from the body. -/
theorem createUser_raises_iff (users : List User) (body : UserBody) (newId : Nat)
    (defaultAddress : String) (defaultWallet : Int) :
    ((∃ e, (createUser users body newId defaultAddress defaultWallet).1 =
        Except.error e) ↔ ∃ u ∈ users, u.email = body.email) ∧
    (∀ e, (createUser users body newId defaultAddress defaultWallet).1 =
        Except.error e → e = ⟨httpStatus.OK, "Email already taken"⟩) ∧
    ((∀ u ∈ users, u.email ≠ body.email) →
      createUser users body newId defaultAddress defaultWallet =
        (Except.ok (User.createDoc body newId defaultAddress defaultWallet),
         users ++ [User.createDoc body newId defaultAddress defaultWallet])) := by
  cases htaken : User.isEmailTaken users body.email with
  | true =>
      have hex : ∃ u ∈ users, u.email = body.email := by
        have := htaken
        unfold User.isEmailTaken at this
        rcases List.any_eq_true.mp this with ⟨u, hu, hbe⟩
        exact ⟨u, hu, by simpa using hbe⟩
      refine ⟨⟨fun _ => hex, fun _ => ?_⟩, ?_, ?_⟩
      · exact ⟨⟨httpStatus.OK, "Email already taken"⟩, by simp [createUser, htaken]⟩
      · intro e he
        simp [createUser, htaken] at he
        exact he.symm
      · intro hno
        rcases hex with ⟨u, hu, he⟩
        exact absurd he (hno u hu)
  | false =>
      have hnotex : ¬ ∃ u ∈ users, u.email = body.email := by
        intro ⟨u, hu, he⟩
        have : User.isEmailTaken users body.email = true := by
          unfold User.isEmailTaken
          exact List.any_eq_true.mpr ⟨u, hu, by simp [he]⟩
        simp [htaken] at this
      refine ⟨⟨fun ⟨e, he⟩ => ?_, fun h => absurd h hnotex⟩, ?_, ?_⟩
      · simp [createUser, htaken] at he
      · intro e he
        simp [createUser, htaken] at he
      · intro _
        simp [createUser, htaken]

/-- Witness for C8 at a concrete state: an empty user collection never has
the email taken, so creation succeeds and appends the new record. -/
theorem createUser_raises_iff_witness :
    createUser [] ⟨"m", "a@b.c", "q"⟩ 0 "" 500 =
      (Except.ok (User.createDoc ⟨"m", "a@b.c", "q"⟩ 0 "" 500),
       [User.createDoc ⟨"m", "a@b.c", "q"⟩ 0 "" 500]) :=
  (createUser_raises_iff [] ⟨"m", "a@b.c", "q"⟩ 0 "" 500).2.2 (by simp)

/-- C9: `getUserById` returns the stored user when one with the given id
exists, and otherwise fails with the "User not found" error (a 400-class
client error). -/
theorem getUserById_spec (users : List User) (id : Nat) :
    (∀ u, User.findById users id = some u → getUserById users id = Except.ok u) ∧
    (User.findById users id = none →
      getUserById users id =
        Except.error ⟨httpStatus.BAD_REQUEST, "User not found"⟩) := by
  constructor
  · intro u hu
    simp [getUserById, hu]
  · intro hnone
    simp [getUserById, hnone]

/-- Witness for C9 at a concrete state: id 0 resolves and is returned; id 1
is absent and fails with "User not found". -/
theorem getUserById_spec_witness :
    getUserById [⟨0, "n", "a@b.c", "p", "", 7⟩] 0 =
      Except.ok ⟨0, "n", "a@b.c", "p", "", 7⟩ ∧
    getUserById [⟨0, "n", "a@b.c", "p", "", 7⟩] 1 =
      Except.error ⟨httpStatus.BAD_REQUEST, "User not found"⟩ :=
  ⟨(getUserById_spec [⟨0, "n", "a@b.c", "p", "", 7⟩] 0).1 _ rfl,
   (getUserById_spec [⟨0, "n", "a@b.c", "p", "", 7⟩] 1).2 rfl⟩

/-- C10: `getUserAddressById` never throws an ApiError on a missing user: it
dereferences the null lookup result instead (a TypeError), so the operation
is total only under the precondition that a user with the id exists, in
which case it returns the requested projection. -/
theorem getUserAddressById_null_deref (users : List User) (id : Nat) (q : Bool) :
    (User.findById users id = none →
      getUserAddressById users id q =
          JsOutcome.typeErr "TypeError: cannot read address of null" ∧
        ∀ e, getUserAddressById users id q ≠ JsOutcome.apiError e) ∧
    (∀ u, User.findById users id = some u →
      getUserAddressById users id q =
        if q then JsOutcome.ok (AddressResult.addressOnly u.address)
        else JsOutcome.ok (AddressResult.full id u.address u.email)) := by
  constructor
  · intro hnone
    refine ⟨by simp [getUserAddressById, hnone], ?_⟩
    intro e
    simp [getUserAddressById, hnone]
  · intro u hu
    simp [getUserAddressById, hu]

/-- Witness for C10 at a concrete state: looking up the absent id 1 crashes
with the TypeError and raises no ApiError; the present id 0 projects. -/
theorem getUserAddressById_null_deref_witness :
    (getUserAddressById [⟨0, "n", "a@b.c", "p", "home", 7⟩] 1 true =
        JsOutcome.typeErr "TypeError: cannot read address of null" ∧
      ∀ e, getUserAddressById [⟨0, "n", "a@b.c", "p", "home", 7⟩] 1 true ≠
        JsOutcome.apiError e) ∧
    getUserAddressById [⟨0, "n", "a@b.c", "p", "home", 7⟩] 0 true =
      JsOutcome.ok (AddressResult.addressOnly "home") := by
  constructor
  · exact (getUserAddressById_null_deref [⟨0, "n", "a@b.c", "p", "home", 7⟩] 1 true).1 rfl
  · have h := (getUserAddressById_null_deref [⟨0, "n", "a@b.c", "p", "home", 7⟩] 0 true).2
      ⟨0, "n", "a@b.c", "p", "home", 7⟩ rfl
    rw [h]; rfl
